import Mathlib

/-!
Shallow embedding of the client scripts of the emergency-response system:
the response-center page script (response.js), the service worker (sw.js)
and the caller-side map script (main.js).  State that the scripts keep in
module-level variables becomes an explicit `ClientState`; each function is
transliterated into a pure state transformer, with network fetch results
passed in as parameters.  Timestamps are modelled as `Nat` (the scripts
only compare them for equality / order).
-/

namespace EmergencyResponse

/-- Header status dot (`setOnline`, `showAlertModal`, `dismissAlertBtn`). -/
inductive Dot
  | online
  | offline
  | alerting
deriving DecidableEq, Repr

/-- An alert record as used by response.js: only `timestamp` (the identity
and ordering key) and `priority` matter to the control flow. -/
structure Alert where
  timestamp : Nat
  priority : Nat
deriving DecidableEq, Repr

/-- Module-level state of response.js: `selectedCenter`, `lastAlertTime`
and `pollInterval` are the script's globals; `activeTimers` records which
interval timers are currently registered (so stacking can be observed);
`modalShown`, `dot`, `dashboardVisible` are the DOM state the claims are
about, and `presentations` logs, in order, the timestamp of every alert
for which `playEmergencySound` + `showAlertModal` fired. -/
structure ClientState where
  selectedCenter : Option String
  lastAlertTime : Option Nat
  activeTimers : List Nat
  pollInterval : Option Nat
  nextTimerId : Nat
  modalShown : Bool
  dot : Dot
  dashboardVisible : Bool
  presentations : List Nat
deriving DecidableEq, Repr

/-- Initial page state: nothing selected, no alerts seen, no timers. -/
def initialState : ClientState :=
  { selectedCenter := none
    lastAlertTime := none
    activeTimers := []
    pollInterval := none
    nextTimerId := 0
    modalShown := false
    dot := Dot.offline
    dashboardVisible := false
    presentations := [] }

/-- `showAlertModal(data)`: shows the modal and sets the header dot to
`alerting`.  (It also schedules a 60 s timeout that only restores the dot;
that callback is modelled by `autoRestoreDot` below.) -/
def showAlertModal (a : Alert) (s : ClientState) : ClientState :=
  { s with modalShown := true, dot := Dot.alerting }

/-- The presentation action of response.js: `playEmergencySound(5)`
immediately followed by `showAlertModal(data)`, as it appears at both
call sites (loadAlerts and the service-worker message listener).  The
alert's timestamp is appended to the presentation log. -/
def soundAndModal (a : Alert) (s : ClientState) : ClientState :=
  showAlertModal a { s with presentations := s.presentations ++ [a.timestamp] }

/-- `loadAlerts()`: with the fetched alert list passed in (newest first,
as returned by GET /alerts).  Returns the state unchanged when no center
is selected or the list is empty; otherwise presents the newest alert
when `lastAlertTime` is set and differs from its timestamp, and always
stores the newest timestamp in `lastAlertTime`. -/
def loadAlerts (alerts : List Alert) (s : ClientState) : ClientState :=
  match s.selectedCenter with
  | none => s
  | some _ =>
    match alerts with
    | [] => s
    | newestAlert :: _ =>
      let newest := newestAlert.timestamp
      let s1 :=
        match s.lastAlertTime with
        | some t => if newest ≠ t then soundAndModal newestAlert s else s
        | none => s
      { s1 with lastAlertTime := some newest }

/-- The polling period passed to `setInterval` in `showDashboard` (ms). -/
def pollIntervalMs : Nat := 15000

/-- `showDashboard()`: shows the dashboard, sets the dot online, runs one
immediate `loadAlerts`, clears the previously registered interval timer
(if any) and registers a fresh one, remembering its id in
`pollInterval`. -/
def showDashboard (fetch_ : List Alert) (s : ClientState) : ClientState :=
  let s1 := { s with dashboardVisible := true, dot := Dot.online }
  let s2 := loadAlerts fetch_ s1
  let cleared :=
    match s2.pollInterval with
    | some i => s2.activeTimers.erase i
    | none => s2.activeTimers
  { s2 with
      activeTimers := s2.nextTimerId :: cleared
      pollInterval := some s2.nextTimerId
      nextTimerId := s2.nextTimerId + 1 }

/-- `changeCenterView()`: clears the interval timer, hides the dashboard
and sets the dot offline.  It touches neither `selectedCenter` nor
`lastAlertTime`. -/
def changeCenterView (s : ClientState) : ClientState :=
  let cleared :=
    match s.pollInterval with
    | some i => s.activeTimers.erase i
    | none => s.activeTimers
  { s with activeTimers := cleared, dashboardVisible := false, dot := Dot.offline }

/-- The center dropdown change handler: `selectedCenter = this.value || null`
(an empty value becomes null).  It does not touch `lastAlertTime`. -/
def centerSelectChange (v : Option String) (s : ClientState) : ClientState :=
  { s with
      selectedCenter :=
        match v with
        | some str => if str = "" then none else some str
        | none => none }

/-- `dismissAlertBtn()`: hides the modal and restores the dot. -/
def dismissAlertBtn (s : ClientState) : ClientState :=
  { s with modalShown := false, dot := Dot.online }

/-- The callback of the 60 s `setTimeout` registered in `showAlertModal`:
it only restores the header dot to online. -/
def autoRestoreDot (s : ClientState) : ClientState :=
  { s with dot := Dot.online }

/-- The `message` listener for `ALERT_CLICKED` events from the service
worker: it unconditionally plays the siren and shows the modal for the
payload, then calls `loadAlerts()` (whose fetch result is passed in). -/
def swAlertClicked (payload : Alert) (fetched : List Alert) (s : ClientState) : ClientState :=
  loadAlerts fetched (soundAndModal payload s)

/-- Events the page can experience; each is a transliterated handler. -/
inductive Ev
  | selectCenter (v : Option String)
  | dash (fetch_ : List Alert)
  | poll (fetch_ : List Alert)
  | push (payload : Alert) (fetch_ : List Alert)
  | dismiss
  | expire
  | changeView
deriving Repr

def step (e : Ev) (s : ClientState) : ClientState :=
  match e with
  | Ev.selectCenter v => centerSelectChange v s
  | Ev.dash f => showDashboard f s
  | Ev.poll f => loadAlerts f s
  | Ev.push a f => swAlertClicked a f s
  | Ev.dismiss => dismissAlertBtn s
  | Ev.expire => autoRestoreDot s
  | Ev.changeView => changeCenterView s

def run (evs : List Ev) (s : ClientState) : ClientState :=
  evs.foldl (fun st e => step e st) s

theorem run_nil (s : ClientState) : run [] s = s := rfl

theorem run_cons (e : Ev) (evs : List Ev) (s : ClientState) :
    run (e :: evs) s = run evs (step e s) := rfl

/-! ## enableNotifications (response.js lines 90-163)

The async setup is modelled as a pure function of its environment: whether
service workers are supported, whether registration succeeded, the
permission outcome, the configured VAPID key and whether the subscribe +
persist round trip succeeded.  The outcome records the user-facing status,
whether `showDashboard` was scheduled (line 162) — the only way the
polling interval ever starts — and whether a subscription reached the
backend. -/

inductive Permission
  | granted
  | denied
  | defaultPerm
deriving DecidableEq, Repr

structure PushEnv where
  swSupported : Bool
  swRegisterOk : Bool
  permission : Permission
  vapidKey : Option String
  subscribeOk : Bool
deriving DecidableEq, Repr

structure EnableOutcome where
  statusError : Bool
  statusSuccess : Bool
  dashboardScheduled : Bool
  subscribedToBackend : Bool
deriving DecidableEq, Repr

/-- `enableNotifications()`: early-returns (with an error status and no
dashboard) when no center is selected is impossible here since the guard
`if (!selectedCenter) return` silently aborts; then aborts on missing SW
support, failed SW registration, and non-granted permission.  Only after
a granted permission does it optionally subscribe (skipped when the VAPID
key is falsy or `NOT_CONFIGURED`, and a failed subscribe only warns) and
finally schedules `showDashboard`. -/
def enableNotifications (selectedCenter : Option String) (env : PushEnv) : EnableOutcome :=
  match selectedCenter with
  | none =>
    { statusError := false, statusSuccess := false
      dashboardScheduled := false, subscribedToBackend := false }
  | some _ =>
    if env.swSupported = false then
      { statusError := true, statusSuccess := false
        dashboardScheduled := false, subscribedToBackend := false }
    else if env.swRegisterOk = false then
      { statusError := true, statusSuccess := false
        dashboardScheduled := false, subscribedToBackend := false }
    else if env.permission ≠ Permission.granted then
      { statusError := true, statusSuccess := false
        dashboardScheduled := false, subscribedToBackend := false }
    else
      let subscribed :=
        match env.vapidKey with
        | some k => if k ≠ "" ∧ k ≠ "NOT_CONFIGURED" then env.subscribeOk else false
        | none => false
      { statusError := false, statusSuccess := true
        dashboardScheduled := true, subscribedToBackend := subscribed }

/-! ## Service worker push handler (sw.js lines 14-46) -/

/-- What `event.data` of a push event can look like to the handler:
absent, present but not valid JSON (with its raw text), or a parsed JSON
object with optional `title`, `body` and `priority` fields. -/
inductive PushEventData
  | noData
  | invalidJson (rawText : String)
  | validJson (title : Option String) (body : Option String) (priority : Option Nat)
deriving DecidableEq, Repr

/-- The `data` object after the try/catch at the top of the handler. -/
structure PushData where
  title : Option String
  body : Option String
  priority : Option Nat
deriving DecidableEq, Repr

/-- `data = event.data ? event.data.json() : {}` with the catch branch
`data = { title: '🚨 Emergency Alert', body: event.data?.text() || '' }`. -/
def parsePushData (ev : PushEventData) : PushData :=
  match ev with
  | PushEventData.noData => { title := none, body := none, priority := none }
  | PushEventData.invalidJson raw =>
    { title := some "🚨 Emergency Alert"
      body := some (if raw = "" then "" else raw)
      priority := none }
  | PushEventData.validJson t b p => { title := t, body := b, priority := p }

/-- JavaScript `x || fallback` on an optional string field: an absent or
empty string is falsy. -/
def jsOrString (v : Option String) (fallback : String) : String :=
  match v with
  | some str => if str = "" then fallback else str
  | none => fallback

/-- `priorityColors[data.priority] || '🔴'`. -/
def priorityDot (p : Option Nat) : String :=
  match p with
  | some 1 => "🔴"
  | some 2 => "🟠"
  | some 3 => "🟡"
  | some 4 => "🟢"
  | _ => "🔴"

def genericBody : String := "New emergency alert received. Tap to view details."

/-- The notification the handler passes to `showNotification`. -/
structure NotificationShown where
  title : String
  body : String
deriving DecidableEq, Repr

/-- The push handler body: builds `title` and `body` with the `||`
fallbacks and always shows exactly one notification (the try/catch plus
total fallbacks mean it never throws). -/
def pushHandler (ev : PushEventData) : NotificationShown :=
  let data := parsePushData ev
  let dotStr := priorityDot data.priority
  { title := jsOrString data.title (dotStr ++ " Emergency Alert")
    body := jsOrString data.body genericBody }

/-! ## showMapForResult (main.js lines 325-415) -/

/-- One entry of `data.emergency_services` with the fields the renderer
reads (`name`, `type`, `type_label`, `lat`, `lon`, `distance_km`). -/
structure NearbyService where
  name : String
  serviceType : String
  typeLabel : Option String
  lat : Int
  lon : Int
  distanceKm : Nat
deriving DecidableEq, Repr

/-- The parsed body of a successful `POST /geocode` response. -/
structure GeocodeData where
  found : Bool
  lat : Int
  lon : Int
  displayName : String
  emergencyServices : Option (List NearbyService)
deriving DecidableEq, Repr

/-- What ends up in the centers column of the map section. -/
inductive CentersView
  | loading
  | noCentersMsg
  | centersList (services : List NearbyService)
deriving DecidableEq, Repr

structure MapOutcome where
  mapSectionVisible : Bool
  centersView : CentersView
  serviceMarkers : Nat
deriving DecidableEq, Repr

/-- `showMapForResult(location, index)` given the transport outcome
(`response.ok`) and the parsed body.  A transport error throws into the
catch block, which hides the map section; `found=false` hides it too;
otherwise the map is built, `services = data.emergency_services || []`,
and an empty list renders the "No help centers found nearby." message
while the section stays visible. -/
def showMapForResult (respOk : Bool) (data : GeocodeData) : MapOutcome :=
  if respOk = false then
    { mapSectionVisible := false, centersView := CentersView.loading, serviceMarkers := 0 }
  else if data.found = false then
    { mapSectionVisible := false, centersView := CentersView.loading, serviceMarkers := 0 }
  else
    let services := data.emergencyServices.getD []
    if services.isEmpty then
      { mapSectionVisible := true, centersView := CentersView.noCentersMsg
        serviceMarkers := services.length }
    else
      { mapSectionVisible := true, centersView := CentersView.centersList services
        serviceMarkers := services.length }

/-! ## Helper lemmas -/

theorem soundAndModal_selectedCenter (a : Alert) (s : ClientState) :
    (soundAndModal a s).selectedCenter = s.selectedCenter := rfl

theorem soundAndModal_lastAlertTime (a : Alert) (s : ClientState) :
    (soundAndModal a s).lastAlertTime = s.lastAlertTime := rfl

theorem soundAndModal_presentations (a : Alert) (s : ClientState) :
    (soundAndModal a s).presentations = s.presentations ++ [a.timestamp] := rfl

/-- When `lastAlertTime` already equals the newest fetched timestamp, a
poll fetch only rewrites `lastAlertTime` (to the same value): no
presentation. -/
theorem loadAlerts_absorbed (s : ClientState) (c : String) (a : Alert) (rest : List Alert)
    (hc : s.selectedCenter = some c) (ht : s.lastAlertTime = some a.timestamp) :
    loadAlerts (a :: rest) s = { s with lastAlertTime := some a.timestamp } := by
  simp [loadAlerts, hc, ht]

/-- When `lastAlertTime` is set and differs from the newest fetched
timestamp, a poll fetch presents the newest alert and stores its
timestamp. -/
theorem loadAlerts_presents (s : ClientState) (c : String) (a : Alert) (rest : List Alert)
    (t : Nat) (hc : s.selectedCenter = some c) (ht : s.lastAlertTime = some t)
    (hne : a.timestamp ≠ t) :
    loadAlerts (a :: rest) s = { soundAndModal a s with lastAlertTime := some a.timestamp } := by
  simp [loadAlerts, hc, ht, hne]

/-- When `lastAlertTime` is unset, a poll fetch only seeds it. -/
theorem loadAlerts_seeds (s : ClientState) (c : String) (a : Alert) (rest : List Alert)
    (hc : s.selectedCenter = some c) (ht : s.lastAlertTime = none) :
    loadAlerts (a :: rest) s = { s with lastAlertTime := some a.timestamp } := by
  simp [loadAlerts, hc, ht]

/-- `loadAlerts` never touches the timer bookkeeping. -/
theorem loadAlerts_timer_fields (f : List Alert) (s : ClientState) :
    (loadAlerts f s).activeTimers = s.activeTimers ∧
    (loadAlerts f s).pollInterval = s.pollInterval ∧
    (loadAlerts f s).nextTimerId = s.nextTimerId := by
  cases hsel : s.selectedCenter with
  | none => simp [loadAlerts, hsel]
  | some c =>
    cases f with
    | nil => simp [loadAlerts, hsel]
    | cons a rest =>
      cases hlast : s.lastAlertTime with
      | none => simp [loadAlerts, hsel, hlast]
      | some t =>
        by_cases hne : a.timestamp = t
        · simp [loadAlerts, hsel, hlast, hne]
        · simp [loadAlerts, hsel, hlast, hne, soundAndModal, showAlertModal]

/-! ## C10: at most one polling interval timer -/

/-- Invariant tying the registered interval timers to `pollInterval`. -/
def timersOk (s : ClientState) : Prop :=
  s.activeTimers = [] ∨ ∃ i, s.activeTimers = [i] ∧ s.pollInterval = some i

theorem timersOk_of_eq (s s' : ClientState) (h1 : s'.activeTimers = s.activeTimers)
    (h2 : s'.pollInterval = s.pollInterval) (h : timersOk s) : timersOk s' := by
  unfold timersOk at h ⊢
  rw [h1, h2]
  exact h

theorem step_timersOk (e : Ev) (s : ClientState) (h : timersOk s) : timersOk (step e s) := by
  cases e with
  | selectCenter v => exact timersOk_of_eq s _ rfl rfl h
  | dismiss => exact timersOk_of_eq s _ rfl rfl h
  | expire => exact timersOk_of_eq s _ rfl rfl h
  | poll f =>
    obtain ⟨hA, hP, _⟩ := loadAlerts_timer_fields f s
    exact timersOk_of_eq s _ hA hP h
  | push a f =>
    obtain ⟨hA, hP, _⟩ := loadAlerts_timer_fields f (soundAndModal a s)
    exact timersOk_of_eq s _ hA hP h
  | changeView =>
    show timersOk (changeCenterView s)
    unfold changeCenterView
    cases h with
    | inl h0 => exact Or.inl (by cases hsp : s.pollInterval <;> simp [h0, hsp])
    | inr hex =>
      obtain ⟨i, hti, hpi⟩ := hex
      exact Or.inl (by simp [hti, hpi])
  | dash f =>
    show timersOk (showDashboard f s)
    unfold showDashboard
    obtain ⟨hA, hP, hN⟩ :=
      loadAlerts_timer_fields f { s with dashboardVisible := true, dot := Dot.online }
    cases h with
    | inl h0 =>
      refine Or.inr ⟨_, ?_, rfl⟩
      simp only [hA, hP]
      cases hsp : s.pollInterval <;> simp [h0]
    | inr hex =>
      obtain ⟨i, hti, hpi⟩ := hex
      refine Or.inr ⟨_, ?_, rfl⟩
      simp only [hA, hP]
      simp [hti, hpi, List.erase_cons_head]

theorem run_timersOk (evs : List Ev) : ∀ s : ClientState, timersOk s → timersOk (run evs s) := by
  induction evs with
  | nil => intro s h; exact h
  | cons e es ih =>
    intro s h
    rw [run_cons]
    exact ih _ (step_timersOk e s h)

/-- C10 (confirmed): starting from the initial page state, no sequence of
page events (facility selections, dashboard entries, poll ticks, push
clicks, dismissals, expiries, leaving the dashboard) ever leaves more
than one polling interval timer registered: `showDashboard` clears the
previous timer before registering a new one and `changeCenterView`
clears it. -/
theorem c10_at_most_one_poll_timer (evs : List Ev) :
    (run evs initialState).activeTimers.length ≤ 1 := by
  have h := run_timersOk evs initialState (Or.inl rfl)
  cases h with
  | inl h0 => simp [h0]
  | inr hex =>
    obtain ⟨i, hti, _⟩ := hex
    simp [hti]

/-! ## C9: empty facility list is a valid, non-error outcome -/

/-- C9 (confirmed): when the geocode transport succeeds and the response
has `found = true` with an empty `emergency_services` list,
`showMapForResult` keeps the map section visible and renders the
"no help centers found" message — the empty list is handled as a valid
outcome, not as the error path (which would hide the section). -/
theorem c9_empty_services_valid (data : GeocodeData) (hf : data.found = true)
    (he : data.emergencyServices = some []) :
    (showMapForResult true data).mapSectionVisible = true ∧
    (showMapForResult true data).centersView = CentersView.noCentersMsg ∧
    (showMapForResult true data).serviceMarkers = 0 := by
  simp [showMapForResult, hf, he]

def gdEmptyServices : GeocodeData :=
  { found := true, lat := 10, lon := 20, displayName := "Sample City"
    emergencyServices := some [] }

/-- C9 witness: the theorem applied to a concrete successful geocode
response with zero nearby facilities. -/
theorem c9_witness :
    gdEmptyServices.found = true ∧ gdEmptyServices.emergencyServices = some [] ∧
    ((showMapForResult true gdEmptyServices).mapSectionVisible = true ∧
     (showMapForResult true gdEmptyServices).centersView = CentersView.noCentersMsg ∧
     (showMapForResult true gdEmptyServices).serviceMarkers = 0) :=
  ⟨rfl, rfl, c9_empty_services_valid gdEmptyServices rfl rfl⟩

/-! ## C8: push handler fallbacks -/

/-- C8 (counterexample): a push payload that is not valid JSON but has
non-empty text ("hello") is shown with the raw text as the body, not the
generic body — refuting "substituting … a generic body" for every
malformed payload. -/
theorem c8_counterexample :
    pushHandler (PushEventData.invalidJson "hello") =
      { title := "🚨 Emergency Alert", body := "hello" } ∧
    "hello" ≠ genericBody := by
  constructor
  · rfl
  · decide

/-- C8 (amended): the push handler never throws and always shows exactly
one notification; an absent payload gets the generic red-dot title and
the generic body; a non-JSON payload gets the generic alert title and,
as body, the raw payload text when non-empty, else the generic body; and
for any JSON payload the fallbacks are per field — a missing (or empty)
title is replaced by the priority-dot generic title while a present one
is kept, and a missing (or empty) body is replaced by the generic body
while a present one is kept. -/
theorem c8_push_fallbacks (raw : String) (t b : Option String) (p : Option Nat) :
    pushHandler PushEventData.noData =
      { title := "🔴 Emergency Alert", body := genericBody } ∧
    pushHandler (PushEventData.invalidJson raw) =
      { title := "🚨 Emergency Alert"
        body := if raw = "" then genericBody else raw } ∧
    (pushHandler (PushEventData.validJson t b p)).title =
      (match t with
       | some s => if s = "" then priorityDot p ++ " Emergency Alert" else s
       | none => priorityDot p ++ " Emergency Alert") ∧
    (pushHandler (PushEventData.validJson t b p)).body =
      (match b with
       | some s => if s = "" then genericBody else s
       | none => genericBody) := by
  refine ⟨rfl, ?_, ?_, ?_⟩
  · by_cases h : raw = "" <;> simp [pushHandler, parsePushData, jsOrString, priorityDot, h]
  · cases t <;> simp [pushHandler, parsePushData, jsOrString]
  · cases b <;> simp [pushHandler, parsePushData, jsOrString]

/-! ## Concrete states used by witnesses -/

/-- A dashboard session whose reconciler state is seeded at timestamp 5. -/
def sSeed : ClientState :=
  { initialState with selectedCenter := some "Central Hospital", lastAlertTime := some 5 }

/-- A fresh selection whose reconciler state is still unseeded. -/
def sFresh : ClientState :=
  { initialState with selectedCenter := some "Alpha" }

/-! ## C1: push/poll idempotence -/

/-- Claim C1 (counterexample): delivering the same identity (timestamp 7)
first via a poll fetch and then via a push-notification click produces
two presentation actions, not one — the message listener presents
unconditionally, so the second delivery is not absorbed. -/
theorem c1_counterexample :
    (run [Ev.selectCenter (some "Central Hospital"), Ev.dash [⟨5, 1⟩],
          Ev.poll [⟨7, 1⟩], Ev.push ⟨7, 1⟩ [⟨7, 1⟩]] initialState).presentations = [7, 7] := by
  decide

/-- Claim C1 (amended): only the poll channel deduplicates — once
`lastAlertTime` equals an alert's timestamp, a further poll delivery of
that identity presents nothing, while a push-click delivery of the same
identity always presents exactly once more (it is never absorbed). -/
theorem c1_poll_absorbs_push_does_not (s : ClientState) (c : String) (a : Alert)
    (rest : List Alert) (hc : s.selectedCenter = some c)
    (ht : s.lastAlertTime = some a.timestamp) :
    (loadAlerts (a :: rest) s).presentations = s.presentations ∧
    (swAlertClicked a (a :: rest) s).presentations = s.presentations ++ [a.timestamp] := by
  constructor
  · rw [loadAlerts_absorbed s c a rest hc ht]
  · unfold swAlertClicked
    have hc2 : (soundAndModal a s).selectedCenter = some c := by
      rw [soundAndModal_selectedCenter, hc]
    have ht2 : (soundAndModal a s).lastAlertTime = some a.timestamp := by
      rw [soundAndModal_lastAlertTime, ht]
    rw [loadAlerts_absorbed (soundAndModal a s) c a rest hc2 ht2]
    simp [soundAndModal, showAlertModal]

/-- Claim C1 witness: the amended theorem at a concrete seeded state and
the alert with timestamp 5. -/
theorem c1_witness :
    sSeed.selectedCenter = some "Central Hospital" ∧
    sSeed.lastAlertTime = some 5 ∧
    ((loadAlerts [⟨5, 1⟩] sSeed).presentations = sSeed.presentations ∧
     (swAlertClicked ⟨5, 1⟩ [⟨5, 1⟩] sSeed).presentations = sSeed.presentations ++ [5]) :=
  ⟨rfl, rfl, c1_poll_absorbs_push_does_not sSeed "Central Hospital" ⟨5, 1⟩ [] rfl rfl⟩

/-! ## C2: first-fetch suppression after (re-)selection -/

/-- Claim C2 (counterexample): after selecting "Alpha", seeding at
timestamp 5, leaving the dashboard and re-selecting "Beta", the first
poll fetch of the new selection (newest timestamp 8) triggers a
presentation — `lastAlertTime` was never reset, so first-fetch
suppression fails for re-selections. -/
theorem c2_counterexample :
    (run [Ev.selectCenter (some "Alpha"), Ev.dash [⟨5, 1⟩], Ev.changeView,
          Ev.selectCenter (some "Beta"), Ev.poll [⟨8, 1⟩]] initialState).presentations = [8] := by
  decide

/-- Claim C2 (amended): the first poll fetch seeds `lastAlertTime`
without presenting only when `lastAlertTime` is still unset (the first
selection of the page session); neither leaving the dashboard
(`changeCenterView`) nor changing the dropdown selection resets
`lastAlertTime`, so a re-selection's first fetch presents whenever its
newest timestamp differs from the retained value. -/
theorem c2_first_fetch_suppression (s : ClientState) (c : String) (a : Alert)
    (rest : List Alert) (v : Option String) (hc : s.selectedCenter = some c)
    (ht : s.lastAlertTime = none) :
    (loadAlerts (a :: rest) s).presentations = s.presentations ∧
    (loadAlerts (a :: rest) s).lastAlertTime = some a.timestamp ∧
    (changeCenterView s).lastAlertTime = s.lastAlertTime ∧
    (centerSelectChange v s).lastAlertTime = s.lastAlertTime := by
  rw [loadAlerts_seeds s c a rest hc ht]
  exact ⟨rfl, rfl, rfl, rfl⟩

/-- Claim C2 witness: the amended theorem at a fresh selection and a
first fetch whose newest timestamp is 8. -/
theorem c2_witness :
    sFresh.selectedCenter = some "Alpha" ∧ sFresh.lastAlertTime = none ∧
    ((loadAlerts [⟨8, 1⟩] sFresh).presentations = sFresh.presentations ∧
     (loadAlerts [⟨8, 1⟩] sFresh).lastAlertTime = some 8 ∧
     (changeCenterView sFresh).lastAlertTime = sFresh.lastAlertTime ∧
     (centerSelectChange (some "Beta") sFresh).lastAlertTime = sFresh.lastAlertTime) :=
  ⟨rfl, rfl, c2_first_fetch_suppression sFresh "Alpha" ⟨8, 1⟩ [] (some "Beta") rfl rfl⟩

/-! ## C3: classification of a poll fetch -/

/-- Claim C3 (counterexample): with `lastAlertTime = 10`, a fetch whose
newest timestamp is 4 — strictly older — still produces a new-alert
presentation, because the code compares with `!==`, not "strictly
newer". -/
theorem c3_counterexample :
    (run [Ev.selectCenter (some "Alpha"), Ev.dash [⟨10, 1⟩], Ev.poll [⟨4, 1⟩]]
        initialState).presentations = [4] ∧ (4 : Nat) < 10 := by
  decide

/-- Claim C3 (amended): on a non-empty fetch with a center selected,
`lastAlertTime` is always updated to the newest fetched timestamp, and a
new-alert presentation fires iff `lastAlertTime` was previously set and
the newest timestamp is *different* from it (mere inequality, not
"strictly newer"). -/
theorem c3_presents_iff_different (s : ClientState) (c : String) (a : Alert)
    (rest : List Alert) (hc : s.selectedCenter = some c) :
    (loadAlerts (a :: rest) s).lastAlertTime = some a.timestamp ∧
    (loadAlerts (a :: rest) s).presentations =
      (match s.lastAlertTime with
       | none => s.presentations
       | some t =>
         if a.timestamp ≠ t then s.presentations ++ [a.timestamp] else s.presentations) := by
  cases ht : s.lastAlertTime with
  | none =>
    rw [loadAlerts_seeds s c a rest hc ht]
    exact ⟨rfl, rfl⟩
  | some t =>
    by_cases hne : a.timestamp = t
    · rw [loadAlerts_absorbed s c a rest hc (by rw [ht, hne])]
      simp [hne]
    · rw [loadAlerts_presents s c a rest t hc ht hne]
      simp [hne, soundAndModal, showAlertModal]

/-- Claim C3 witness: the amended theorem at the seeded state (last seen
5) and a fetch whose newest timestamp is 4. -/
theorem c3_witness :
    sSeed.selectedCenter = some "Central Hospital" ∧
    ((loadAlerts [⟨4, 1⟩] sSeed).lastAlertTime = some 4 ∧
     (loadAlerts [⟨4, 1⟩] sSeed).presentations =
       (match sSeed.lastAlertTime with
        | none => sSeed.presentations
        | some t =>
          if (4 : Nat) ≠ t then sSeed.presentations ++ [4] else sSeed.presentations)) :=
  ⟨rfl, c3_presents_iff_different sSeed "Central Hospital" ⟨4, 1⟩ [] rfl⟩

/-! ## C4: permission denial vs the polling loop -/

def envDenied : PushEnv :=
  { swSupported := true, swRegisterOk := true, permission := Permission.denied
    vapidKey := some "BTestKey", subscribeOk := true }

/-- Claim C4 (counterexample): with service workers supported and
registered but permission denied, `enableNotifications` sets an error
status and never schedules `showDashboard` — so the polling loop does
not start; the session is blocked at the selection card rather than
degrading to polling-only. -/
theorem c4_counterexample :
    (enableNotifications (some "Central Hospital") envDenied).dashboardScheduled = false ∧
    (enableNotifications (some "Central Hospital") envDenied).statusError = true := by
  decide

/-- Claim C4 (amended): permission denial is terminal for the whole
setup — the status shows an error and the dashboard (hence the polling
loop) is not started; only with permission granted does the dashboard
start, and then it starts regardless of the subscription outcome
(failed or skipped subscription degrades to polling-only). -/
theorem c4_denial_blocks_dashboard (c : String) (env : PushEnv)
    (hs : env.swSupported = true) (hr : env.swRegisterOk = true) :
    (env.permission ≠ Permission.granted →
      (enableNotifications (some c) env).statusError = true ∧
      (enableNotifications (some c) env).dashboardScheduled = false) ∧
    (env.permission = Permission.granted →
      (enableNotifications (some c) env).dashboardScheduled = true) := by
  constructor
  · intro hp
    simp [enableNotifications, hs, hr, hp]
  · intro hp
    simp [enableNotifications, hs, hr, hp]

/-- Claim C4 witness: the amended theorem at the concrete
permission-denied environment. -/
theorem c4_witness :
    envDenied.swSupported = true ∧ envDenied.swRegisterOk = true ∧
    ((envDenied.permission ≠ Permission.granted →
       (enableNotifications (some "Central Hospital") envDenied).statusError = true ∧
       (enableNotifications (some "Central Hospital") envDenied).dashboardScheduled = false) ∧
     (envDenied.permission = Permission.granted →
       (enableNotifications (some "Central Hospital") envDenied).dashboardScheduled = true)) :=
  ⟨rfl, rfl, c4_denial_blocks_dashboard "Central Hospital" envDenied rfl rfl⟩

/-! ## C5: monotonicity and reset of lastAlertTime -/

/-- Claim C5 (counterexample): `lastAlertTime` goes from 10 down to 4
when a later fetch's newest timestamp is smaller (no monotonicity
guard), and `changeCenterView` leaves it at 4 (no reset on clearing the
selection). -/
theorem c5_counterexample :
    (run [Ev.selectCenter (some "Alpha"), Ev.dash [⟨10, 1⟩]] initialState).lastAlertTime
      = some 10 ∧
    (run [Ev.selectCenter (some "Alpha"), Ev.dash [⟨10, 1⟩], Ev.poll [⟨4, 1⟩]]
        initialState).lastAlertTime = some 4 ∧
    (4 : Nat) < 10 ∧
    (run [Ev.selectCenter (some "Alpha"), Ev.dash [⟨10, 1⟩], Ev.poll [⟨4, 1⟩], Ev.changeView]
        initialState).lastAlertTime = some 4 := by
  decide

/-- Claim C5 (amended): after any non-empty fetch `lastAlertTime` simply
equals the newest fetched timestamp (so it is non-decreasing only if the
feed's newest timestamp never decreases — the code has no guard), and
neither leaving the dashboard nor changing the dropdown selection resets
it. -/
theorem c5_lastAlertTime_tracks_newest (s : ClientState) (c : String) (a : Alert)
    (rest : List Alert) (v : Option String) (hc : s.selectedCenter = some c) :
    (loadAlerts (a :: rest) s).lastAlertTime = some a.timestamp ∧
    (changeCenterView s).lastAlertTime = s.lastAlertTime ∧
    (centerSelectChange v s).lastAlertTime = s.lastAlertTime := by
  refine ⟨?_, rfl, rfl⟩
  cases ht : s.lastAlertTime with
  | none => rw [loadAlerts_seeds s c a rest hc ht]
  | some t =>
    by_cases hne : a.timestamp = t
    · rw [loadAlerts_absorbed s c a rest hc (by rw [ht, hne])]
    · rw [loadAlerts_presents s c a rest t hc ht hne]

/-- Claim C5 witness: the amended theorem at the seeded state with a
fetch whose newest timestamp is 4. -/
theorem c5_witness :
    sSeed.selectedCenter = some "Central Hospital" ∧
    ((loadAlerts [⟨4, 1⟩] sSeed).lastAlertTime = some 4 ∧
     (changeCenterView sSeed).lastAlertTime = sSeed.lastAlertTime ∧
     (centerSelectChange none sSeed).lastAlertTime = sSeed.lastAlertTime) :=
  ⟨rfl, c5_lastAlertTime_tracks_newest sSeed "Central Hospital" ⟨4, 1⟩ [] none rfl⟩

/-! ## C6: 60-second auto-expiry -/

/-- Claim C6 (counterexample): after an alert is presented and the 60 s
timeout fires, the modal is still shown — only the header dot reverted
to online — so the session does not fully revert to Idle. -/
theorem c6_counterexample :
    (run [Ev.selectCenter (some "Alpha"), Ev.dash [⟨5, 1⟩], Ev.poll [⟨7, 1⟩], Ev.expire]
        initialState).modalShown = true ∧
    (run [Ev.selectCenter (some "Alpha"), Ev.dash [⟨5, 1⟩], Ev.poll [⟨7, 1⟩], Ev.expire]
        initialState).dot = Dot.online := by
  decide

/-- Claim C6 (amended): presenting an alert shows the modal and turns
the header dot to `alerting`; after the 60 s timeout only the dot
reverts to `online` while the modal remains shown; only the explicit
dismiss button hides the modal. -/
theorem c6_expiry_restores_dot_only (s : ClientState) (a : Alert) :
    (showAlertModal a s).modalShown = true ∧
    (showAlertModal a s).dot = Dot.alerting ∧
    (autoRestoreDot (showAlertModal a s)).dot = Dot.online ∧
    (autoRestoreDot (showAlertModal a s)).modalShown = true ∧
    (dismissAlertBtn (autoRestoreDot (showAlertModal a s))).modalShown = false ∧
    (dismissAlertBtn (autoRestoreDot (showAlertModal a s))).dot = Dot.online :=
  ⟨rfl, rfl, rfl, rfl, rfl, rfl⟩

/-! ## C7: newer alert wins -/

/-- Claim C7 (counterexample): alerts with timestamps 3 < 5 are both
delivered before any dismissal — 5 via a poll fetch, then 3 via a
push-notification click — and the identity presented last is 3, the
older one: a push click re-presents an older alert over a newer one. -/
theorem c7_counterexample :
    (run [Ev.selectCenter (some "Alpha"), Ev.dash [⟨1, 1⟩], Ev.poll [⟨5, 2⟩, ⟨3, 1⟩],
          Ev.push ⟨3, 1⟩ [⟨5, 2⟩, ⟨3, 1⟩]] initialState).presentations = [5, 3] ∧
    (3 : Nat) < 5 := by
  decide

/-- Claim C7 (amended): restricted to the polling channel the claim
holds — with the reconciler state seeded, two successive fetches whose
newest elements are `a1` then `a2` with `a1.timestamp < a2.timestamp`
present first `a1` then `a2`, so the identity presented last is the
newer timestamp. -/
theorem c7_poll_ordering (s : ClientState) (c : String) (t0 : Nat) (a1 a2 : Alert)
    (r1 r2 : List Alert) (hc : s.selectedCenter = some c) (h0 : s.lastAlertTime = some t0)
    (h1 : a1.timestamp ≠ t0) (h12 : a1.timestamp < a2.timestamp) :
    (loadAlerts (a2 :: r2) (loadAlerts (a1 :: r1) s)).presentations =
      s.presentations ++ [a1.timestamp, a2.timestamp] := by
  rw [loadAlerts_presents s c a1 r1 t0 hc h0 h1]
  have hne2 : a2.timestamp ≠ a1.timestamp := (Nat.ne_of_lt h12).symm
  have hc1 :
      ({ soundAndModal a1 s with
          lastAlertTime := some a1.timestamp } : ClientState).selectedCenter = some c := by
    simp [soundAndModal, showAlertModal, hc]
  rw [loadAlerts_presents _ c a2 r2 a1.timestamp hc1 rfl hne2]
  simp [soundAndModal, showAlertModal]

/-- Claim C7 witness: the amended theorem at the seeded state with
alerts at timestamps 7 < 9. -/
theorem c7_witness :
    sSeed.selectedCenter = some "Central Hospital" ∧ sSeed.lastAlertTime = some 5 ∧
    (7 : Nat) ≠ 5 ∧ (7 : Nat) < 9 ∧
    (loadAlerts [⟨9, 2⟩] (loadAlerts [⟨7, 1⟩] sSeed)).presentations =
      sSeed.presentations ++ [7, 9] :=
  ⟨rfl, rfl, by decide, by decide,
    c7_poll_ordering sSeed "Central Hospital" 5 ⟨7, 1⟩ ⟨9, 2⟩ [] [] rfl rfl (by decide)
      (by decide)⟩

end EmergencyResponse
